import Mathlib

/-
Shallow embedding of the dashboard synchronization engine of
`src/dashboard_sync.py` (BYOV enrollment repository).

Modelling conventions, used throughout:

* Python dict-shaped JSON data is modelled by the inductive `JVal`; a
  dict is an association list in insertion order, `dict.get` is `jlookup`
  (returning `JVal.null` for a missing key, as `.get` returns `None`).
* A `requests.Response` is modelled by `Resp` (status code, the result of
  `.json()` — `none` when parsing raises — and the `.text` body).
  `Resp.okFlag` models `requests.Response.ok`, which is true exactly when
  `status_code < 400`.
* A call to the network either returns a response or raises; this is
  `CallResult`.  Each embedded top-level function takes an environment
  record that fixes what every network call it can make would produce,
  and returns, besides its result, the list of network calls it performed
  (`NetCall`), in order; a retried operation contributes one trace entry
  per invocation.
* Python truthiness on strings is `s ≠ ""`; optional string fields use
  `Option String` where the distinction `None` vs `""` matters and plain
  `String` (with `""` for absent) where it does not.
* Database and file-storage collaborators (`database.*`, `file_storage.*`)
  are modelled as total fields of the environment; `datetime.now()` is the
  environment field `today`; `mimetypes.guess_type` is the environment
  field `mimeOf`.  `str.upper()` is `pyUpper` (per-character upper-casing).
* `time.sleep` durations are collected in the `sleeps` field of the retry
  controller's output, as rationals, in seconds.
-/

namespace DashboardSync

/-- JSON-ish values exchanged with the external dashboard service. -/
inductive JVal where
  | null
  | jstr (s : String)
  | jnum (n : Int)
  | jbool (b : Bool)
  | arr (xs : List JVal)
  | obj (kvs : List (String × JVal))

/-- Python truthiness of a JSON value (`None`, `""`, `0`, `False`, empty
containers are falsy). -/
def JVal.truthy : JVal → Bool
  | JVal.null => false
  | JVal.jstr s => s != ""
  | JVal.jnum n => n != 0
  | JVal.jbool b => b
  | JVal.arr xs => !xs.isEmpty
  | JVal.obj kvs => !kvs.isEmpty

/-- Python `str()` of a JSON value, as used when an id from a response is
interpolated into a URL or stored as a string.  Container rendering is
abbreviated (no claim depends on it). -/
def JVal.asStr : JVal → String
  | JVal.null => "None"
  | JVal.jstr s => s
  | JVal.jnum n => toString n
  | JVal.jbool b => if b then "True" else "False"
  | JVal.arr _ => "<list>"
  | JVal.obj _ => "<dict>"

/-- Model of `d.get(k)` on a dict body: first binding of the key, `null` (Python
`None`) when absent. -/
def jlookup : List (String × JVal) → String → JVal
  | [], _ => JVal.null
  | kv :: rest, k => if kv.1 = k then kv.2 else jlookup rest k

/-- Lookup in an association-list payload, `none` when the key is absent
(used to state which keys a payload carries). -/
def plookup : List (String × JVal) → String → Option JVal
  | [], _ => none
  | kv :: rest, k => if kv.1 = k then some kv.2 else plookup rest k

/-- Python `a or b` on JSON values: `a` when truthy, else `b`. -/
def pyOrJ (a b : JVal) : JVal := if a.truthy then a else b

/-- A `requests.Response`: status code, parsed `.json()` body (`none` when
parsing raises) and raw `.text`. -/
structure Resp where
  status_code : Nat
  jsonBody : Option JVal
  text : String

/-- Model of `requests.Response.ok`: true iff the status code is below 400. -/
def Resp.okFlag (r : Resp) : Bool := r.status_code < 400

/-- Outcome of performing one network call: a response object, or a raised
exception carrying its message. -/
inductive CallResult where
  | ret (r : Resp)
  | raised (e : String)

/-- Network calls the sync engine can make, in the order performed.
`uploadUrlReq` is `POST /api/objects/upload`, `putBytes` the signed-URL
`PUT`, `batchReg` is `POST .../photos/batch`, `photoReg` the per-item
`POST .../photos`, `externalCreate` is `POST /api/external/technicians`
carrying its JSON payload. -/
inductive NetCall where
  | login
  | checkTech (techId : String)
  | createTech (payload : List (String × JVal))
  | uploadUrlReq (category : String)
  | putBytes (url : String)
  | batchReg (count : Nat)
  | photoReg (path : String)
  | externalCreate (payload : List (String × JVal))

/-- Model of `record.get(k) or record.get(k2) or ""`-style chaining on an optional
string: the string when present and non-empty, else the fallback. -/
def pyStrOr (a : Option String) (b : String) : String :=
  match a with
  | some s => if s = "" then b else s
  | none => b

/-- Model of `str.upper()` (per-character upper-casing). -/
def pyUpper (s : String) : String := String.mk (s.data.map Char.toUpper)

/-- Model of `text[:200]`, the diagnostic truncation of response bodies. -/
def pyTake200 (s : String) : String := s.take 200

theorem pyUpper_eq_empty_iff (s : String) : pyUpper s = "" ↔ s = "" := by
  cases s with
  | mk data =>
    constructor
    · intro h
      have h2 : data.map Char.toUpper = [] := by
        simpa [pyUpper, String.ext_iff] using h
      have : data = [] := List.map_eq_nil_iff.mp h2
      simp [this]
    · intro h
      simp only [h]
      rfl

/-!  ## Retry Controller (`_retry_request`, src/dashboard_sync.py:78-95)

The wrapped operation is a function from the 1-based attempt number to a
`CallResult`.  A returned response with a false `ok` flag raises
`RuntimeError("status_<code>")` inside the `try`, which the handler
catches like any transport exception, so it is retried too.  (All
operations passed to `_retry_request` in this module return `Response`
objects, so the `hasattr(resp, 'ok')` guard is always true and is not
modelled.)  Each failed attempt before the last sleeps
`backoff_base * 2 ** (attempt - 1)`. -/

/-- Output of the retry controller: the final outcome (an ok response, or
`error` when the last recorded exception is re-raised), the number of
times the operation was invoked, and the sleeps performed. -/
structure RetryOutput where
  result : Except String Resp
  invocations : Nat
  sleeps : List ℚ

/-- The exception message attempt `a` records, if it fails: raised message
for a transport error, `status_<code>` for a returned non-ok response,
`none` when the attempt succeeds. -/
def failMsg : CallResult → Option String
  | CallResult.ret r => if r.okFlag then none else some ("status_" ++ toString r.status_code)
  | CallResult.raised e => some e

/-- Main loop of `_retry_request`; `fuel` is the number of attempts left,
the current 1-based attempt number is `attempts - fuel + 1`. -/
def retryAux (func : Nat → CallResult) (base : ℚ) (attempts : Nat) :
    Nat → Option String → Nat → List ℚ → RetryOutput
  | 0, lastExc, calls, sleeps =>
      { result := Except.error (lastExc.getD "no_attempts")
        invocations := calls
        sleeps := sleeps }
  | fuel + 1, _lastExc, calls, sleeps =>
      let attempt := attempts - fuel
      match func attempt with
      | CallResult.ret r =>
          if r.okFlag then
            { result := Except.ok r, invocations := calls + 1, sleeps := sleeps }
          else
            let e := "status_" ++ toString r.status_code
            let sleeps2 := if fuel > 0 then sleeps ++ [base * 2 ^ (attempt - 1)] else sleeps
            retryAux func base attempts fuel (some e) (calls + 1) sleeps2
      | CallResult.raised e =>
          let sleeps2 := if fuel > 0 then sleeps ++ [base * 2 ^ (attempt - 1)] else sleeps
          retryAux func base attempts fuel (some e) (calls + 1) sleeps2

/-- Embedding of `_retry_request(func, attempts, backoff_base)`. -/
def retryRequest (func : Nat → CallResult) (attempts : Nat) (backoff_base : ℚ) : RetryOutput :=
  retryAux func backoff_base attempts attempts none 0 []

/-- Every run of the retry controller with at least one attempt invokes the
operation at least once. -/
theorem retryAux_invocations_ge (func : Nat → CallResult) (base : ℚ) (attempts : Nat) :
    ∀ fuel lastExc calls sleeps,
      calls ≤ (retryAux func base attempts fuel lastExc calls sleeps).invocations := by
  intro fuel
  induction fuel with
  | zero => intro lastExc calls sleeps; simp [retryAux]
  | succ n ih =>
    intro lastExc calls sleeps
    simp only [retryAux]
    cases func (attempts - n) with
    | ret r =>
      by_cases h : r.okFlag
      · simp [h]
      · simp only [h, if_false]
        exact le_trans (Nat.le_succ calls) (ih _ _ _)
    | raised e =>
      exact le_trans (Nat.le_succ calls) (ih _ _ _)

theorem retryRequest_invocations_pos (func : Nat → CallResult) (base : ℚ)
    (attempts : Nat) (h : 0 < attempts) :
    0 < (retryRequest func attempts base).invocations := by
  cases attempts with
  | zero => exact absurd h (by simp)
  | succ n =>
    have hg := retryAux_invocations_ge func base (n + 1)
    have hidx : n + 1 - n = 1 := by omega
    unfold retryRequest
    simp only [retryAux, hidx]
    cases hf : func 1 with
    | ret r =>
      by_cases hok : r.okFlag
      · simp [hok]
      · simp only [hok, Bool.false_eq_true, if_false]
        exact lt_of_lt_of_le Nat.one_pos (hg n _ _ _)
    | raised e =>
      exact lt_of_lt_of_le Nat.one_pos (hg n _ _ _)

/-- C3: with the default configuration (3 attempts, backoff base 0.5), an
operation that fails on every attempt (by raising, or by returning a
non-ok response, which `_retry_request` converts into a raised
`status_<code>` error) is invoked exactly 3 times, the recorded sleeps are
`0.5 * 2^0 = 0.5` and `0.5 * 2^1 = 1.0` time-units, and the error of the
final attempt is re-raised to the caller. -/
theorem c3_retry_bound (func : Nat → CallResult)
    (h : ∀ a, 1 ≤ a → a ≤ 3 → (failMsg (func a)).isSome = true) :
    (retryRequest func 3 (1/2)).invocations = 3 ∧
    (retryRequest func 3 (1/2)).sleeps = [1/2, 1] ∧
    (retryRequest func 3 (1/2)).result = Except.error ((failMsg (func 3)).getD "") := by
  have h1 := h 1 (by omega) (by omega)
  have h2 := h 2 (by omega) (by omega)
  have h3 := h 3 (by omega) (by omega)
  unfold retryRequest retryAux
  cases hf1 : func 1 with
  | ret r1 =>
    have hok1 : r1.okFlag = false := by
      by_contra hh
      simp [failMsg, hf1, eq_true_of_ne_false hh] at h1
    simp only [show (3:Nat) - 2 = 1 by rfl, hf1, hok1, if_false, Bool.false_eq_true]
    unfold retryAux
    cases hf2 : func 2 with
    | ret r2 =>
      have hok2 : r2.okFlag = false := by
        by_contra hh
        simp [failMsg, hf2, eq_true_of_ne_false hh] at h2
      simp only [show (3:Nat) - 1 = 2 by rfl, hf2, hok2, if_false, Bool.false_eq_true]
      unfold retryAux
      cases hf3 : func 3 with
      | ret r3 =>
        have hok3 : r3.okFlag = false := by
          by_contra hh
          simp [failMsg, hf3, eq_true_of_ne_false hh] at h3
        simp only [show (3:Nat) - 0 = 3 by rfl, hf3, hok3, if_false, Bool.false_eq_true]
        unfold retryAux
        refine ⟨rfl, ?_, ?_⟩
        · norm_num
        · simp [failMsg, hf3, hok3]
      | raised e3 =>
        simp only [show (3:Nat) - 0 = 3 by rfl, hf3]
        unfold retryAux
        refine ⟨rfl, ?_, ?_⟩
        · norm_num
        · simp [failMsg, hf3]
    | raised e2 =>
      simp only [show (3:Nat) - 1 = 2 by rfl, hf2]
      unfold retryAux
      cases hf3 : func 3 with
      | ret r3 =>
        have hok3 : r3.okFlag = false := by
          by_contra hh
          simp [failMsg, hf3, eq_true_of_ne_false hh] at h3
        simp only [show (3:Nat) - 0 = 3 by rfl, hf3, hok3, if_false, Bool.false_eq_true]
        unfold retryAux
        refine ⟨rfl, ?_, ?_⟩
        · norm_num
        · simp [failMsg, hf3, hok3]
      | raised e3 =>
        simp only [show (3:Nat) - 0 = 3 by rfl, hf3]
        unfold retryAux
        refine ⟨rfl, ?_, ?_⟩
        · norm_num
        · simp [failMsg, hf3]
  | raised e1 =>
    simp only [show (3:Nat) - 2 = 1 by rfl, hf1]
    unfold retryAux
    cases hf2 : func 2 with
    | ret r2 =>
      have hok2 : r2.okFlag = false := by
        by_contra hh
        simp [failMsg, hf2, eq_true_of_ne_false hh] at h2
      simp only [show (3:Nat) - 1 = 2 by rfl, hf2, hok2, if_false, Bool.false_eq_true]
      unfold retryAux
      cases hf3 : func 3 with
      | ret r3 =>
        have hok3 : r3.okFlag = false := by
          by_contra hh
          simp [failMsg, hf3, eq_true_of_ne_false hh] at h3
        simp only [show (3:Nat) - 0 = 3 by rfl, hf3, hok3, if_false, Bool.false_eq_true]
        unfold retryAux
        refine ⟨rfl, ?_, ?_⟩
        · norm_num
        · simp [failMsg, hf3, hok3]
      | raised e3 =>
        simp only [show (3:Nat) - 0 = 3 by rfl, hf3]
        unfold retryAux
        refine ⟨rfl, ?_, ?_⟩
        · norm_num
        · simp [failMsg, hf3]
    | raised e2 =>
      simp only [show (3:Nat) - 1 = 2 by rfl, hf2]
      unfold retryAux
      cases hf3 : func 3 with
      | ret r3 =>
        have hok3 : r3.okFlag = false := by
          by_contra hh
          simp [failMsg, hf3, eq_true_of_ne_false hh] at h3
        simp only [show (3:Nat) - 0 = 3 by rfl, hf3, hok3, if_false, Bool.false_eq_true]
        unfold retryAux
        refine ⟨rfl, ?_, ?_⟩
        · norm_num
        · simp [failMsg, hf3, hok3]
      | raised e3 =>
        simp only [show (3:Nat) - 0 = 3 by rfl, hf3]
        unfold retryAux
        refine ⟨rfl, ?_, ?_⟩
        · norm_num
        · simp [failMsg, hf3]

theorem c3_retry_bound_witness :
    (∀ a, 1 ≤ a → a ≤ 3 →
        (failMsg ((fun _ => CallResult.raised "conn_reset") a)).isSome = true) ∧
    (retryRequest (fun _ => CallResult.raised "conn_reset") 3 (1/2)).invocations = 3 ∧
    (retryRequest (fun _ => CallResult.raised "conn_reset") 3 (1/2)).sleeps = [1/2, 1] ∧
    (retryRequest (fun _ => CallResult.raised "conn_reset") 3 (1/2)).result =
      Except.error ((failMsg ((fun _ => CallResult.raised "conn_reset") 3)).getD "") :=
  ⟨fun _ _ _ => rfl, c3_retry_bound (fun _ => CallResult.raised "conn_reset") (fun _ _ _ => rfl)⟩

/-- A response that carries only a status code (empty body), used in
concrete counterexamples. -/
def bareResp (code : Nat) : Resp := { status_code := code, jsonBody := none, text := "" }

/-- C4 counterexample: an operation that deterministically returns a 500
(application-level rejection, `ok` false) is invoked 3 times by
`_retry_request` with the default configuration, not once: the
`RuntimeError("status_500")` raised for the non-ok response is caught by
the same handler as transport errors and retried. -/
theorem c4_counterexample :
    (retryRequest (fun _ => CallResult.ret (bareResp 500)) 3 (1/2)).invocations = 3 ∧
    ¬ (retryRequest (fun _ => CallResult.ret (bareResp 500)) 3 (1/2)).invocations = 1 := by
  constructor
  · rfl
  · intro h
    simp [retryRequest, retryAux, bareResp, Resp.okFlag] at h

/-- C4 amended: an operation returning a non-ok response (status ≥ 400) is
retried exactly like a transport failure — invoked up to the attempt
limit with the same backoff — and after the final attempt the last
`status_<code>` error is raised to the caller. -/
theorem c4_nonok_is_retried (s : Nat) (body : Option JVal) (txt : String)
    (h : 400 ≤ s) :
    retryRequest (fun _ => CallResult.ret { status_code := s, jsonBody := body, text := txt }) 3 (1/2) =
      { result := Except.error ("status_" ++ toString s)
        invocations := 3
        sleeps := [1/2, 1] } := by
  have hok : ({ status_code := s, jsonBody := body, text := txt } : Resp).okFlag = false := by
    simp [Resp.okFlag]
    omega
  unfold retryRequest retryAux
  simp only [hok, if_false, Bool.false_eq_true]
  unfold retryAux
  simp only [hok, if_false, Bool.false_eq_true]
  unfold retryAux
  simp only [hok, if_false, Bool.false_eq_true]
  unfold retryAux
  norm_num

theorem c4_nonok_is_retried_witness :
    400 ≤ 500 ∧
    retryRequest (fun _ => CallResult.ret { status_code := 500, jsonBody := none, text := "" }) 3 (1/2) =
      { result := Except.error ("status_" ++ toString 500)
        invocations := 3
        sleeps := [1/2, 1] } :=
  ⟨by omega, c4_nonok_is_retried 500 none "" (by omega)⟩

/-!  ## Date normalization (`_format_date`, src/dashboard_sync.py:98-106)

A stored date string is modelled by `DateVal`: a falsy value (`None` or
`""`), a string `datetime.fromisoformat` parses (abstracted to the
year/month/day it yields), or a non-empty string it rejects.
`strftime("%Y-%m-%d")` zero-pads the components. -/

inductive DateVal where
  | absent
  | parsed (y m d : Nat)
  | unparsable (s : String)
  deriving DecidableEq

/-- Zero-padded decimal rendering of width `w`. -/
def padNum (w n : Nat) : String :=
  let s := toString n
  String.mk (List.replicate (w - s.length) '0') ++ s

/-- Embedding of `_format_date`: `None` for a falsy input, the `YYYY-MM-DD` rendering
for a parsable one, `None` when parsing raises. -/
def formatDate : DateVal → Option String
  | DateVal.absent => none
  | DateVal.parsed y m d => some (padNum 4 y ++ "-" ++ padNum 2 m ++ "-" ++ padNum 2 d)
  | DateVal.unparsable _ => none

/-- Python `a or b` on stored date values (`absent` is the only falsy
case: `None` or the empty string). -/
def dateOr : DateVal → DateVal → DateVal
  | DateVal.absent, b => b
  | a, _ => a

/-- The raw `industry` value on a record: a list of tags or a scalar. -/
inductive IndustryVal where
  | list (xs : List String)
  | scalar (s : String)
  deriving DecidableEq

/-- Model of `", ".join(raw) if raw else ""` for a list, `str(raw) if raw else ""`
for a scalar (src/dashboard_sync.py:175-178). -/
def industryStr : IndustryVal → String
  | IndustryVal.list xs => if xs.isEmpty then "" else String.intercalate ", " xs
  | IndustryVal.scalar s => s

/-- A row of `database.get_documents_for_enrollment` (and an entry of a
record's `documents` list): `""` stands for a missing/falsy value. -/
structure Doc where
  file_path : String
  doc_type : String
  category : String
  deriving DecidableEq

/-- JSON value of an optional string field (`None` when absent). -/
def jOptStr : Option String → JVal
  | some s => JVal.jstr s
  | none => JVal.null

/-!  ## `push_to_dashboard` (src/dashboard_sync.py:109-394)

The two-phase (signed-URL) create flow.  `PushRecord` carries exactly the
keys the function reads from its `record` dict; `PushEnv` fixes the
response of every network call the function can make (upload-URL, PUT and
per-item registration responses are indexed by document path and 1-based
attempt number) together with the database/file-system collaborators.
Database access and the log file are modelled as total/no-ops. -/

structure PushRecord where
  tech_id : String
  full_name : Option String
  state : Option String
  district : Option String
  referred_by : Option String
  referredBy : Option String
  is_new_hire : Bool
  truck_number : Option String
  submission_date : DateVal
  insurance_exp : DateVal
  insurance_expiration : DateVal
  insuranceExpiration : DateVal
  registration_exp : DateVal
  registration_expiration : DateVal
  registrationExpiration : DateVal
  vin : Option String
  make : Option String
  model : Option String
  year : Option String
  industry : Option IndustryVal
  industries : List String
  vehicle_photos_paths : List String
  insurance_docs_paths : List String
  registration_docs_paths : List String

structure PushEnv where
  loginResp : CallResult
  checkResp : CallResult
  createResp : CallResult
  uploadUrlResp : String → Nat → CallResult
  putResp : String → Nat → CallResult
  batchResp : CallResult
  registerResp : String → Nat → CallResult
  pathExists : String → Bool
  dbDocs : List Doc
  mimeOf : String → Option String
  today : String

/-- The create payload (src/dashboard_sync.py:185-203), as an ordered
key/value list mirroring the dict literal. -/
def mkCreatePayload (r : PushRecord) (today : String) : List (String × JVal) :=
  let date_started := (formatDate r.submission_date).getD today
  let insurance_exp :=
    formatDate (dateOr r.insurance_exp (dateOr r.insurance_expiration r.insuranceExpiration))
  let registration_exp :=
    formatDate (dateOr r.registration_exp (dateOr r.registration_expiration r.registrationExpiration))
  let industry_raw :=
    match r.industry with
    | some v => v
    | none => IndustryVal.list r.industries
  let referred_by_val := pyStrOr r.referred_by (pyStrOr r.referredBy "")
  let hire_status := if r.is_new_hire then "New Hire" else "Existing Tech"
  [("name", jOptStr r.full_name),
   ("techId", JVal.jstr (pyUpper r.tech_id)),
   ("region", jOptStr r.state),
   ("district", jOptStr r.district),
   ("referredBy", JVal.jstr referred_by_val),
   ("enrollmentStatus", JVal.jstr "Enrolled"),
   ("isNewHire", JVal.jbool r.is_new_hire),
   ("hireStatus", JVal.jstr hire_status),
   ("truckId", JVal.jstr (pyStrOr r.truck_number "")),
   ("dateStartedByov", JVal.jstr date_started),
   ("vinNumber", jOptStr r.vin),
   ("vehicleMake", jOptStr r.make),
   ("vehicleModel", jOptStr r.model),
   ("vehicleYear", jOptStr r.year),
   ("industry", JVal.jstr (industryStr industry_raw)),
   ("insuranceExpiration", jOptStr insurance_exp),
   ("registrationExpiration", jOptStr registration_exp)]

/-- The `GET /api/technicians?techId=` body check: `isinstance(existing, list)
and existing` (a failed `.json()` parse falls through to create). -/
def isNonEmptyArr : Option JVal → Bool
  | some (JVal.arr (_ :: _)) => true
  | _ => false

/-- Per-category path collection from the document rows
(src/dashboard_sync.py:242-252): rows with a falsy path are skipped. -/
def pathsFromDocs (docs : List Doc) (t : String) : List String :=
  (docs.filter (fun d => d.file_path != "" && d.doc_type == t)).map (fun d => d.file_path)

/-- The `(category, path)` pairs the upload loop iterates over
(src/dashboard_sync.py:230-265): the record's own path lists, or the
documents table when an enrollment id is given and all three lists are
empty. -/
def pushPaths (env : PushEnv) (r : PushRecord) (enrollment_id : Nat) : List (String × String) :=
  let vehicle0 := r.vehicle_photos_paths
  let insurance0 := r.insurance_docs_paths
  let registration0 := r.registration_docs_paths
  let useDb := enrollment_id ≠ 0 ∧ vehicle0 = [] ∧ insurance0 = [] ∧ registration0 = []
  let vehicle_paths := if useDb then pathsFromDocs env.dbDocs "vehicle" else vehicle0
  let insurance_paths := if useDb then pathsFromDocs env.dbDocs "insurance" else insurance0
  let registration_paths := if useDb then pathsFromDocs env.dbDocs "registration" else registration0
  vehicle_paths.map (fun p => ("vehicle", p)) ++
    insurance_paths.map (fun p => ("insurance", p)) ++
    registration_paths.map (fun p => ("registration", p))

/-- An entry of `uploaded_entries`. -/
structure UploadEntry where
  uploadURL : String
  category : String
  mimeType : String
  path : String
  deriving DecidableEq

/-- An entry of `failed_uploads`: `{'path': ..., 'reason': ...}`. -/
structure FailEntry where
  path : String
  reason : String
  deriving DecidableEq

/-- One iteration of the two-phase upload loop
(src/dashboard_sync.py:264-317): missing file, signed-URL request
(retried, base 0.6), `uploadURL` extraction, then the `PUT` (retried).
`"json_attribute_error"` stands for the `str(exc)` recorded when the
response body is not a dict and the per-photo handler catches the
resulting exception. -/
def uploadOnePhoto (env : PushEnv) (category path : String) :
    Option UploadEntry × Option FailEntry × List NetCall :=
  if path = "" ∨ env.pathExists path = false then
    (none, some ⟨path, "missing"⟩, [])
  else
    let upOut := retryRequest (env.uploadUrlResp path) 3 (3/5)
    let tr1 := List.replicate upOut.invocations (NetCall.uploadUrlReq category)
    match upOut.result with
    | Except.error e => (none, some ⟨path, e⟩, tr1)
    | Except.ok resp =>
      match resp.jsonBody with
      | some (JVal.obj kvs) =>
        let gcs := jlookup kvs "uploadURL"
        if gcs.truthy then
          let gcs_url := gcs.asStr
          let mime := (env.mimeOf path).getD "application/octet-stream"
          let putOut := retryRequest (env.putResp path) 3 (3/5)
          let tr2 := List.replicate putOut.invocations (NetCall.putBytes gcs_url)
          match putOut.result with
          | Except.error e => (none, some ⟨path, e⟩, tr1 ++ tr2)
          | Except.ok _ => (some ⟨gcs_url, category, mime, path⟩, none, tr1 ++ tr2)
        else (none, some ⟨path, "no_upload_url"⟩, tr1)
      | _ => (none, some ⟨path, "json_attribute_error"⟩, tr1)

/-- The whole upload loop: uploaded entries, failed entries and network
trace, in document order. -/
def uploadPhase (env : PushEnv) : List (String × String) →
    List UploadEntry × List FailEntry × List NetCall
  | [] => ([], [], [])
  | cp :: rest =>
    let hd := uploadOnePhoto env cp.1 cp.2
    let tl := uploadPhase env rest
    (hd.1.toList ++ tl.1, hd.2.1.toList ++ tl.2.1, hd.2.2 ++ tl.2.2)

/-!  ## Batch-with-fallback registrar (src/dashboard_sync.py:319-391)

`registerUploaded` embeds the registration phase: one bulk
`POST .../photos/batch`; when it returns ok, the registered count is the
length of its list body (falling back to the entry count); when it is
non-ok or raises, each entry is registered individually through the retry
controller, successes incrementing the count and failures appended with
their own reason.  The per-item fallback bodies of the non-ok branch
(lines 343-364) and of the exception branch (lines 366-386) are textually
the same logic and are embedded once (`registerIndividually`); the same
registrar phase also appears verbatim in `upload_photos_for_technician`
(lines 869-908). -/

def registerIndividually (reg : String → Nat → CallResult) :
    List UploadEntry → Nat × List FailEntry × List NetCall
  | [] => (0, [], [])
  | e :: rest =>
    let out := retryRequest (reg e.path) 3 (3/5)
    let tr0 := List.replicate out.invocations (NetCall.photoReg e.path)
    let tl := registerIndividually reg rest
    match out.result with
    | Except.ok _ => (tl.1 + 1, tl.2.1, tr0 ++ tl.2.2)
    | Except.error msg => (tl.1, FailEntry.mk e.path msg :: tl.2.1, tr0 ++ tl.2.2)

def registerUploaded (batch : CallResult) (reg : String → Nat → CallResult)
    (entries : List UploadEntry) : Nat × List FailEntry × List NetCall :=
  if entries.isEmpty then (0, [], [])
  else
    match batch with
    | CallResult.ret r =>
      if r.okFlag then
        let registered :=
          match r.jsonBody with
          | some (JVal.arr xs) => xs.length
          | _ => entries.length
        (registered, [], [NetCall.batchReg entries.length])
      else
        let ind := registerIndividually reg entries
        (ind.1, ind.2.1, NetCall.batchReg entries.length :: ind.2.2)
    | CallResult.raised _ =>
      let ind := registerIndividually reg entries
      (ind.1, ind.2.1, NetCall.batchReg entries.length :: ind.2.2)

/-- Result dict of `push_to_dashboard`: `statusExists` stands for
`{"status": "exists", "photo_count": 0}`, `created n fs` for
`{"status": "created", "photo_count": n}` plus the `failed_uploads` list
when non-empty, `errorMsg` / `loginFailed` for the `{"error": ...}`
shapes. -/
inductive PushResult where
  | loginFailed (status : Nat) (body : String)
  | errorMsg (msg : String)
  | statusExists
  | created (photo_count : Nat) (failed_uploads : List FailEntry)
  deriving DecidableEq

def push_to_dashboard (env : PushEnv) (record : PushRecord) (enrollment_id : Nat) :
    PushResult × List NetCall :=
  match env.loginResp with
  | CallResult.raised e => (PushResult.errorMsg e, [NetCall.login])
  | CallResult.ret login_resp =>
    if login_resp.okFlag then
      let tech_id := pyUpper record.tech_id
      if tech_id = "" then (PushResult.errorMsg "record missing tech_id", [NetCall.login])
      else
        match env.checkResp with
        | CallResult.raised e => (PushResult.errorMsg e, [NetCall.login, NetCall.checkTech tech_id])
        | CallResult.ret check_resp =>
          if check_resp.okFlag && isNonEmptyArr check_resp.jsonBody then
            (PushResult.statusExists, [NetCall.login, NetCall.checkTech tech_id])
          else
            let payload := mkCreatePayload record env.today
            let tr2 := [NetCall.login, NetCall.checkTech tech_id, NetCall.createTech payload]
            match env.createResp with
            | CallResult.raised e => (PushResult.errorMsg e, tr2)
            | CallResult.ret create_resp =>
              if 200 ≤ create_resp.status_code ∧ create_resp.status_code < 300 then
                match create_resp.jsonBody with
                | some (JVal.obj kvs) =>
                  if (jlookup kvs "id").truthy then
                    let up := uploadPhase env (pushPaths env record enrollment_id)
                    let regOut := registerUploaded env.batchResp env.registerResp up.1
                    (PushResult.created regOut.1 (up.2.1 ++ regOut.2.1),
                      tr2 ++ up.2.2 ++ regOut.2.2)
                  else (PushResult.errorMsg "No technician ID in response", tr2)
                | _ => (PushResult.errorMsg "Failed to parse technician response", tr2)
              else
                (PushResult.errorMsg ("dashboard responded " ++ toString create_resp.status_code), tr2)
    else
      (PushResult.loginFailed login_resp.status_code (pyTake200 login_resp.text), [NetCall.login])

/-- C1: when the technician-id existence check returns a non-empty array,
`push_to_dashboard` stops after login and that single GET: it returns the
no-op result `{"status": "exists", "photo_count": 0}`, performs no create
call and no document upload of any kind. -/
theorem c1_exists_short_circuit (env : PushEnv) (record : PushRecord) (eid : Nat)
    (lr cr : Resp) (x : JVal) (xs : List JVal)
    (hl : env.loginResp = CallResult.ret lr) (hok : lr.okFlag = true)
    (ht : record.tech_id ≠ "")
    (hc : env.checkResp = CallResult.ret cr) (hcok : cr.okFlag = true)
    (hbody : cr.jsonBody = some (JVal.arr (x :: xs))) :
    push_to_dashboard env record eid =
      (PushResult.statusExists, [NetCall.login, NetCall.checkTech (pyUpper record.tech_id)]) := by
  have htu : ¬ pyUpper record.tech_id = "" := fun h => ht ((pyUpper_eq_empty_iff _).mp h)
  simp [push_to_dashboard, hl, hok, htu, hc, hcok, hbody, isNonEmptyArr]

def respOkEmpty : Resp := { status_code := 200, jsonBody := none, text := "" }

def respArrOne : Resp :=
  { status_code := 200
    jsonBody := some (JVal.arr [JVal.obj [("id", JVal.jnum 7)]])
    text := "" }

def envExists : PushEnv :=
  { loginResp := CallResult.ret respOkEmpty
    checkResp := CallResult.ret respArrOne
    createResp := CallResult.raised "unreachable"
    uploadUrlResp := fun _ _ => CallResult.raised "unreachable"
    putResp := fun _ _ => CallResult.raised "unreachable"
    batchResp := CallResult.raised "unreachable"
    registerResp := fun _ _ => CallResult.raised "unreachable"
    pathExists := fun _ => false
    dbDocs := []
    mimeOf := fun _ => none
    today := "2024-01-01" }

def recBase : PushRecord :=
  { tech_id := "t123"
    full_name := some "Jane Tech"
    state := none
    district := none
    referred_by := none
    referredBy := none
    is_new_hire := false
    truck_number := none
    submission_date := DateVal.absent
    insurance_exp := DateVal.absent
    insurance_expiration := DateVal.absent
    insuranceExpiration := DateVal.absent
    registration_exp := DateVal.absent
    registration_expiration := DateVal.absent
    registrationExpiration := DateVal.absent
    vin := none
    make := none
    model := none
    year := none
    industry := none
    industries := []
    vehicle_photos_paths := []
    insurance_docs_paths := []
    registration_docs_paths := [] }

theorem c1_exists_short_circuit_witness :
    recBase.tech_id ≠ "" ∧
    push_to_dashboard envExists recBase 5 =
      (PushResult.statusExists, [NetCall.login, NetCall.checkTech (pyUpper recBase.tech_id)]) :=
  ⟨by decide,
   c1_exists_short_circuit envExists recBase 5 respOkEmpty respArrOne
     (JVal.obj [("id", JVal.jnum 7)]) [] rfl rfl (by decide) rfl rfl rfl⟩

/-- Whether the per-item registration of an entry (through the retry
controller at 3 attempts, base 0.6) ends in success. -/
def regOk (reg : String → Nat → CallResult) (e : UploadEntry) : Bool :=
  match (retryRequest (reg e.path) 3 (3/5)).result with
  | Except.ok _ => true
  | Except.error _ => false

/-- The reason recorded when the per-item registration of an entry fails. -/
def regErr (reg : String → Nat → CallResult) (e : UploadEntry) : String :=
  match (retryRequest (reg e.path) 3 (3/5)).result with
  | Except.ok _ => ""
  | Except.error msg => msg

theorem registerIndividually_spec (reg : String → Nat → CallResult)
    (entries : List UploadEntry) :
    (registerIndividually reg entries).1 = (entries.filter (fun e => regOk reg e)).length ∧
    (registerIndividually reg entries).2.1 =
      (entries.filter (fun e => !(regOk reg e))).map
        (fun e => FailEntry.mk e.path (regErr reg e)) ∧
    ∀ e ∈ entries, NetCall.photoReg e.path ∈ (registerIndividually reg entries).2.2 := by
  induction entries with
  | nil => simp [registerIndividually]
  | cons e rest ih =>
    obtain ⟨ih1, ih2, ih3⟩ := ih
    have hpos : 0 < (retryRequest (reg e.path) 3 (3/5)).invocations :=
      retryRequest_invocations_pos _ _ _ (by omega)
    cases hres : (retryRequest (reg e.path) 3 (3/5)).result with
    | ok r =>
      have hrOk : regOk reg e = true := by simp [regOk, hres]
      refine ⟨?_, ?_, ?_⟩
      · simp only [registerIndividually, hres]
        simp [List.filter_cons, hrOk, ih1]
      · simp only [registerIndividually, hres]
        simp [List.filter_cons, hrOk, ih2]
      · intro a ha
        simp only [registerIndividually, hres]
        rcases List.mem_cons.mp ha with heq | hmem
        · subst heq
          exact List.mem_append_left _
            (List.mem_replicate.mpr ⟨Nat.pos_iff_ne_zero.mp hpos, rfl⟩)
        · exact List.mem_append_right _ (ih3 a hmem)
    | error msg =>
      have hrOk : regOk reg e = false := by simp [regOk, hres]
      have hrErr : regErr reg e = msg := by simp [regErr, hres]
      refine ⟨?_, ?_, ?_⟩
      · simp only [registerIndividually, hres]
        simp [List.filter_cons, hrOk, ih1]
      · simp only [registerIndividually, hres]
        simp [List.filter_cons, hrOk, hrErr, ih2]
      · intro a ha
        simp only [registerIndividually, hres]
        rcases List.mem_cons.mp ha with heq | hmem
        · subst heq
          exact List.mem_append_left _
            (List.mem_replicate.mpr ⟨Nat.pos_iff_ne_zero.mp hpos, rfl⟩)
        · exact List.mem_append_right _ (ih3 a hmem)

/-- The bulk registration call "failed" in the sense the code acts on:
it raised, or it returned a response whose `ok` flag is false
(status ≥ 400). -/
def batchFailedHard : CallResult → Prop
  | CallResult.ret r => 400 ≤ r.status_code
  | CallResult.raised _ => True

def entrySample : UploadEntry :=
  { uploadURL := "https://gcs.example/u0"
    category := "vehicle"
    mimeType := "image/jpeg"
    path := "/data/uploads/a.jpg" }

def regRaise : String → Nat → CallResult := fun _ _ => CallResult.raised "conn_reset"

/-- C7 counterexample: a bulk registration response with status 300 is
non-2xx, yet `requests.Response.ok` is true for it (ok == status < 400),
so the code takes the bulk-success branch: the entry is counted as
registered from the batch body, no per-item registration is attempted
(no `photoReg` call in the trace), and nothing is appended to the
failure list — contradicting the claim that any non-2xx bulk response
triggers the individual fallback. -/
theorem c7_counterexample :
    (registerUploaded (CallResult.ret (bareResp 300)) regRaise [entrySample]).1 = 1 ∧
    (registerUploaded (CallResult.ret (bareResp 300)) regRaise [entrySample]).2.1 = [] ∧
    (registerUploaded (CallResult.ret (bareResp 300)) regRaise [entrySample]).2.2 =
      [NetCall.batchReg 1] :=
  ⟨rfl, rfl, rfl⟩

/-- C7 amended: when the bulk registration call fails in the sense the
code tests — it raises, or returns a response with a false `ok` flag
(status ≥ 400) — every uploaded entry is registered individually through
the retry controller: the resulting count is the number of entries whose
individual registration succeeds, each still-failing entry is appended to
the failure list with its own reason, and a per-item registration call is
traced for every entry. -/
theorem c7_batch_fallback (batch : CallResult) (reg : String → Nat → CallResult)
    (entries : List UploadEntry) (h : batchFailedHard batch) :
    (registerUploaded batch reg entries).1 = (entries.filter (fun e => regOk reg e)).length ∧
    (registerUploaded batch reg entries).2.1 =
      (entries.filter (fun e => !(regOk reg e))).map
        (fun e => FailEntry.mk e.path (regErr reg e)) ∧
    ∀ e ∈ entries, NetCall.photoReg e.path ∈ (registerUploaded batch reg entries).2.2 := by
  cases entries with
  | nil => simp [registerUploaded]
  | cons e rest =>
    obtain ⟨h1, h2, h3⟩ := registerIndividually_spec reg (e :: rest)
    cases batch with
    | raised msg =>
      refine ⟨?_, ?_, ?_⟩
      · simpa [registerUploaded] using h1
      · simpa [registerUploaded] using h2
      · intro a ha
        simp only [registerUploaded, List.isEmpty_cons, Bool.false_eq_true, if_false]
        exact List.mem_cons_of_mem _ (h3 a ha)
    | ret r =>
      have hok : r.okFlag = false := by
        simp only [batchFailedHard] at h
        simp [Resp.okFlag]
        omega
      refine ⟨?_, ?_, ?_⟩
      · simpa [registerUploaded, hok] using h1
      · simpa [registerUploaded, hok] using h2
      · intro a ha
        simp only [registerUploaded, List.isEmpty_cons, Bool.false_eq_true, if_false, hok]
        exact List.mem_cons_of_mem _ (h3 a ha)

theorem c7_batch_fallback_witness :
    batchFailedHard (CallResult.ret (bareResp 500)) ∧
    ((registerUploaded (CallResult.ret (bareResp 500)) regRaise [entrySample]).1 =
        ([entrySample].filter (fun e => regOk regRaise e)).length ∧
      (registerUploaded (CallResult.ret (bareResp 500)) regRaise [entrySample]).2.1 =
        ([entrySample].filter (fun e => !(regOk regRaise e))).map
          (fun e => FailEntry.mk e.path (regErr regRaise e)) ∧
      ∀ e ∈ [entrySample], NetCall.photoReg e.path ∈
        (registerUploaded (CallResult.ret (bareResp 500)) regRaise [entrySample]).2.2) :=
  ⟨by simp [batchFailedHard, bareResp],
   c7_batch_fallback (CallResult.ret (bareResp 500)) regRaise [entrySample]
     (by simp [batchFailedHard, bareResp])⟩

/-!  ## Single-request (inline base64) strategy
(`push_to_dashboard_single_request`, src/dashboard_sync.py:397-545)

Document bytes are modelled as `List Nat` (byte values); `base64.b64encode`
is implemented concretely (`b64encode`).  The md5 debug hash and the
`print` are output-only and not modelled. -/

def b64Alphabet : List Char :=
  "ABCDEFGHIJKLMNOPQRSTUVWXYZabcdefghijklmnopqrstuvwxyz0123456789+/".data

def b64Char (n : Nat) : Char := b64Alphabet.getD n '='

def b64Chunks : List Nat → List Char
  | [] => []
  | [a] => [b64Char (a / 4), b64Char (a % 4 * 16), '=', '=']
  | [a, b] => [b64Char (a / 4), b64Char (a % 4 * 16 + b / 16), b64Char (b % 16 * 4), '=']
  | a :: b :: c :: rest =>
    b64Char (a / 4) :: b64Char (a % 4 * 16 + b / 16) :: b64Char (b % 16 * 4 + c / 64) ::
      b64Char (c % 64) :: b64Chunks rest

def b64encode (bs : List Nat) : String := String.mk (b64Chunks bs)

/-- The 10 MB per-document limit (`MAX_BYTES = 10 * 1024 * 1024`). -/
def MAX_BYTES : Nat := 10 * 1024 * 1024

/-- An element of the outbound `photos` list: `{'category', 'base64'}`. -/
structure Photo where
  category : String
  base64 : String
  deriving DecidableEq

/-- An entry of `failed_photos`: `{'path': ..., 'error': ...}` plus the
`'size'` key that only the `size_exceeded` entries carry. -/
structure FailPhoto where
  path : String
  error : String
  size : Option Nat
  deriving DecidableEq

/-- Python `a or b` where `a` is a string with `""` for falsy. -/
def pyStrOr2 (a b : String) : String := if a = "" then b else a

structure SREnv where
  loginResp : CallResult
  extResp : CallResult
  dbDocs : List Doc
  fileExists : String → Bool
  readFile : String → Except String (List Nat)
  mimeOf : String → Option String

structure SRRecord where
  tech_id : Option String
  techId : Option String
  full_name : Option String
  name : Option String
  region : Option String
  state : Option String
  district : Option String
  enrollmentStatus : Option String
  is_new_hire : Bool
  truckId : Option String
  truck_id : Option String
  truck_number : Option String
  mobilePhoneNumber : Option String
  mobile : Option String
  phone : Option String
  techEmail : Option String
  email : Option String
  cityState : Option String
  vin : Option String
  vinNumber : Option String
  insurance_exp : DateVal
  insuranceExpiration : DateVal
  registration_exp : DateVal
  registrationExpiration : DateVal
  make : Option String
  model : Option String
  year : Option String
  industry : Option IndustryVal
  industries : List String
  submission_date : DateVal
  dateStartedByov : DateVal
  referred_by : Option String
  referredBy : Option String
  documents : List Doc

/-- Model of `(record.get('tech_id') or record.get('techId') or '').upper()`. -/
def srTechId (r : SRRecord) : String := pyUpper (pyStrOr r.tech_id (pyStrOr r.techId ""))

/-- A `[("key", value)]` singleton when the optional field is truthy, else
nothing (the `if record.get('make'): payload[...] = ...` pattern). -/
def optKey (k : String) (v : Option String) : List (String × JVal) :=
  match v with
  | some s => if s = "" then [] else [(k, JVal.jstr s)]
  | none => []

/-- The single-request create payload (src/dashboard_sync.py:426-460), as
an ordered key/value list: the dict literal followed by the conditional
assignments. -/
def mkSRPayload (r : SRRecord) : List (String × JVal) :=
  let hire_status := if r.is_new_hire then "New Hire" else "Existing Tech"
  let industryKV : List (String × JVal) :=
    match r.industry with
    | some (IndustryVal.list xs) => [("industry", JVal.jstr (String.intercalate ", " xs))]
    | some (IndustryVal.scalar s) => if s = "" then [] else [("industry", JVal.jstr s)]
    | none => [("industry", JVal.jstr (String.intercalate ", " r.industries))]
  let dateKV : List (String × JVal) :=
    match formatDate (dateOr r.submission_date r.dateStartedByov) with
    | some s => [("dateStartedByov", JVal.jstr s)]
    | none => []
  [("name", JVal.jstr (pyStrOr r.full_name (pyStrOr r.name ""))),
   ("techId", JVal.jstr (srTechId r)),
   ("region", JVal.jstr (pyStrOr r.region (pyStrOr r.state ""))),
   ("district", JVal.jstr (pyStrOr r.district "")),
   ("enrollmentStatus", JVal.jstr (r.enrollmentStatus.getD "Enrolled")),
   ("isNewHire", JVal.jbool r.is_new_hire),
   ("hireStatus", JVal.jstr hire_status),
   ("truckId", JVal.jstr (pyStrOr r.truckId (pyStrOr r.truck_id (pyStrOr r.truck_number "")))),
   ("mobilePhoneNumber", JVal.jstr (pyStrOr r.mobilePhoneNumber (pyStrOr r.mobile (pyStrOr r.phone "")))),
   ("techEmail", JVal.jstr (pyStrOr r.techEmail (pyStrOr r.email ""))),
   ("cityState", JVal.jstr (pyStrOr r.cityState "")),
   ("vinNumber", JVal.jstr (pyStrOr r.vin (pyStrOr r.vinNumber ""))),
   ("insuranceExpiration",
     JVal.jstr ((formatDate (dateOr r.insurance_exp r.insuranceExpiration)).getD "")),
   ("registrationExpiration",
     JVal.jstr ((formatDate (dateOr r.registration_exp r.registrationExpiration)).getD ""))] ++
  optKey "vehicleMake" r.make ++
  optKey "vehicleModel" r.model ++
  optKey "vehicleYear" r.year ++
  industryKV ++
  dateKV ++
  optKey "referredBy" (some (pyStrOr r.referred_by (pyStrOr r.referredBy "")))

/-- Processing of one document of the single-request loop
(src/dashboard_sync.py:475-503): missing path, missing file, read; a
document whose byte size exceeds `MAX_BYTES` is recorded as failed with
error `size_exceeded` (carrying its size) and skipped before any network
activity; an accepted document is base64-encoded, wrapped as a data URL
when its MIME type is an image or PDF. -/
def encodeDoc (env : SREnv) (d : Doc) : Option Photo × Option FailPhoto :=
  let path := d.file_path
  let category := pyStrOr2 d.doc_type (pyStrOr2 d.category "vehicle")
  if path = "" then (none, some ⟨path, "missing path", none⟩)
  else if env.fileExists path = false then (none, some ⟨path, "missing", none⟩)
  else
    match env.readFile path with
    | Except.error e => (none, some ⟨path, e, none⟩)
    | Except.ok b =>
      let size := b.length
      if size > MAX_BYTES then (none, some ⟨path, "size_exceeded", some size⟩)
      else
        let raw_b64 := b64encode b
        let mime := (env.mimeOf path).getD "application/octet-stream"
        if mime.startsWith "image/" ∨ mime = "application/pdf" then
          (some ⟨category, "data:" ++ mime ++ ";base64," ++ raw_b64⟩, none)
        else (some ⟨category, raw_b64⟩, none)

/-- The whole document loop: encoded photos and failed entries, in
document order. -/
def srAttachPhotos (env : SREnv) : List Doc → List Photo × List FailPhoto
  | [] => ([], [])
  | d :: rest =>
    let hd := encodeDoc env d
    let tl := srAttachPhotos env rest
    (hd.1.toList ++ tl.1, hd.2.toList ++ tl.2)

theorem srAttachPhotos_eq (env : SREnv) (docs : List Doc) :
    srAttachPhotos env docs =
      (docs.filterMap (fun d => (encodeDoc env d).1),
       docs.filterMap (fun d => (encodeDoc env d).2)) := by
  induction docs with
  | nil => rfl
  | cons d rest ih =>
    simp only [srAttachPhotos, ih, List.filterMap_cons]
    cases h1 : (encodeDoc env d).1 <;> cases h2 : (encodeDoc env d).2 <;> simp

/-- The documents the single-request flow attaches: the documents table
when an enrollment id is given, else the record's own `documents` list
(src/dashboard_sync.py:462-469; database access modelled as total). -/
def srDocs (env : SREnv) (record : SRRecord) (enrollment_id : Nat) : List Doc :=
  if enrollment_id ≠ 0 then env.dbDocs else record.documents

def photoJVal (p : Photo) : JVal :=
  JVal.obj [("category", JVal.jstr p.category), ("base64", JVal.jstr p.base64)]

/-- Model of `resp.json()` with the raw-text fallback (src/dashboard_sync.py:515-518). -/
def respJson (resp : Resp) : JVal :=
  match resp.jsonBody with
  | some v => v
  | none => JVal.obj [("raw_text", JVal.jstr resp.text)]

/-- Id extraction from the create response (src/dashboard_sync.py:524-530):
probe a nested `technician` / `technicianCreated` object (falling back to
the top-level dict) for `id` / `techId`, else the top-level
`id` / `technicianId`; `null` when nothing matches (Python `None`). -/
def extractReturnedId (resp_json : JVal) : JVal :=
  match resp_json with
  | JVal.obj kvs =>
    let tech := pyOrJ (jlookup kvs "technician") (pyOrJ (jlookup kvs "technicianCreated") resp_json)
    match tech with
    | JVal.obj tkvs => pyOrJ (jlookup tkvs "id") (jlookup tkvs "techId")
    | _ => pyOrJ (jlookup kvs "id") (jlookup kvs "technicianId")
  | _ => JVal.null

/-- The `set_dashboard_sync_info` write of the single-request flow
(src/dashboard_sync.py:532-540): enrollment id, `str()` of the returned
technician id, and the stored report. -/
structure SyncPersist where
  enrollment_id : Nat
  dashboard_tech_id : String
  photo_count : Nat
  failed_uploads : List FailPhoto
  response : JVal

/-- Result of `push_to_dashboard_single_request`; `done` carries
`status_code`, the parsed (or raw-text) response, `photo_count` and the
`failed_photos` list (the function returns this `result` dict for every
status code, src/dashboard_sync.py:542-545). -/
inductive SROutcome where
  | loginExc (e : String)
  | loginFailed (status : Nat) (body : String)
  | missingTechId
  | reqFailed (e : String) (failed_photos : List FailPhoto)
  | done (status_code : Nat) (response : JVal) (photo_count : Nat) (failed_photos : List FailPhoto)

def push_to_dashboard_single_request (env : SREnv) (record : SRRecord) (enrollment_id : Nat) :
    SROutcome × Option SyncPersist × List NetCall :=
  match env.loginResp with
  | CallResult.raised e => (SROutcome.loginExc ("Login exception: " ++ e), none, [NetCall.login])
  | CallResult.ret lr =>
    if lr.okFlag then
      if srTechId record = "" then (SROutcome.missingTechId, none, [NetCall.login])
      else
        let docs := srDocs env record enrollment_id
        let pf := srAttachPhotos env docs
        let payload := mkSRPayload record ++
          (if pf.1.isEmpty then [] else [("photos", JVal.arr (pf.1.map photoJVal))])
        let tr := [NetCall.login, NetCall.externalCreate payload]
        match env.extResp with
        | CallResult.raised e =>
          (SROutcome.reqFailed ("request failed: " ++ e) pf.2, none, tr)
        | CallResult.ret resp =>
          let rj := respJson resp
          let tid := extractReturnedId rj
          let persisted :=
            if enrollment_id ≠ 0 ∧ tid.truthy then
              some { enrollment_id := enrollment_id
                     dashboard_tech_id := tid.asStr
                     photo_count := pf.1.length
                     failed_uploads := pf.2
                     response := rj }
            else none
          (SROutcome.done resp.status_code rj pf.1.length pf.2, persisted, tr)
    else (SROutcome.loginFailed lr.status_code (pyTake200 lr.text), none, [NetCall.login])

/-- C2: in the single-request strategy (technician present, login ok,
request sent), the outbound `photos` payload and the failure list are
exactly the per-document encodings; any readable document over 10 MB is
turned into a `size_exceeded` failure carrying its size and contributes
nothing to the photos (so its bytes are never transmitted), while any
readable document at or under the limit is encoded and included in the
outbound photos. -/
theorem c2_size_limit (env : SREnv) (record : SRRecord) (eid : Nat) (lr resp : Resp)
    (hl : env.loginResp = CallResult.ret lr) (hok : lr.okFlag = true)
    (ht : srTechId record ≠ "") (he : env.extResp = CallResult.ret resp) :
    (srAttachPhotos env (srDocs env record eid)).1 =
      (srDocs env record eid).filterMap (fun d => (encodeDoc env d).1) ∧
    (srAttachPhotos env (srDocs env record eid)).2 =
      (srDocs env record eid).filterMap (fun d => (encodeDoc env d).2) ∧
    (push_to_dashboard_single_request env record eid).1 =
      SROutcome.done resp.status_code (respJson resp)
        (srAttachPhotos env (srDocs env record eid)).1.length
        (srAttachPhotos env (srDocs env record eid)).2 ∧
    (push_to_dashboard_single_request env record eid).2.2 =
      [NetCall.login,
       NetCall.externalCreate (mkSRPayload record ++
         (if (srAttachPhotos env (srDocs env record eid)).1.isEmpty then []
          else [("photos", JVal.arr ((srAttachPhotos env (srDocs env record eid)).1.map photoJVal))]))] ∧
    ∀ d ∈ srDocs env record eid, ∀ b, d.file_path ≠ "" →
      env.fileExists d.file_path = true → env.readFile d.file_path = Except.ok b →
      (MAX_BYTES < b.length →
        encodeDoc env d = (none, some ⟨d.file_path, "size_exceeded", some b.length⟩) ∧
        FailPhoto.mk d.file_path "size_exceeded" (some b.length) ∈
          (srAttachPhotos env (srDocs env record eid)).2) ∧
      (b.length ≤ MAX_BYTES →
        (encodeDoc env d).2 = none ∧
        ∃ ph, (encodeDoc env d).1 = some ph ∧
          ph ∈ (srAttachPhotos env (srDocs env record eid)).1) := by
  obtain ⟨heq1, heq2⟩ := Prod.mk.injEq _ _ _ _ ▸ srAttachPhotos_eq env (srDocs env record eid)
  refine ⟨?_, ?_, ?_, ?_, ?_⟩
  · rw [srAttachPhotos_eq]
  · rw [srAttachPhotos_eq]
  · simp [push_to_dashboard_single_request, hl, hok, ht, he]
  · simp [push_to_dashboard_single_request, hl, hok, ht, he]
  · intro d hd b hp hex hread
    constructor
    · intro hbig
      have henc : encodeDoc env d = (none, some ⟨d.file_path, "size_exceeded", some b.length⟩) := by
        simp [encodeDoc, hp, hex, hread, hbig]
      refine ⟨henc, ?_⟩
      rw [srAttachPhotos_eq]
      exact List.mem_filterMap.mpr ⟨d, hd, by rw [henc]⟩
    · intro hsmall
      have hnotbig : ¬ b.length > MAX_BYTES := by omega
      by_cases hmime :
          ((env.mimeOf d.file_path).getD "application/octet-stream").startsWith "image/" ∨
          (env.mimeOf d.file_path).getD "application/octet-stream" = "application/pdf"
      · have henc : encodeDoc env d =
            (some ⟨pyStrOr2 d.doc_type (pyStrOr2 d.category "vehicle"),
              "data:" ++ (env.mimeOf d.file_path).getD "application/octet-stream" ++
                ";base64," ++ b64encode b⟩, none) := by
          simp [encodeDoc, hp, hex, hread, hnotbig, hmime]
        refine ⟨by rw [henc], _, by rw [henc], ?_⟩
        rw [srAttachPhotos_eq]
        exact List.mem_filterMap.mpr ⟨d, hd, by rw [henc]⟩
      · have henc : encodeDoc env d =
            (some ⟨pyStrOr2 d.doc_type (pyStrOr2 d.category "vehicle"), b64encode b⟩, none) := by
          simp [encodeDoc, hp, hex, hread, hnotbig, hmime]
        refine ⟨by rw [henc], _, by rw [henc], ?_⟩
        rw [srAttachPhotos_eq]
        exact List.mem_filterMap.mpr ⟨d, hd, by rw [henc]⟩

def srRecBase : SRRecord :=
  { tech_id := some "t9"
    techId := none
    full_name := some "Jane Tech"
    name := none
    region := none
    state := none
    district := none
    enrollmentStatus := none
    is_new_hire := false
    truckId := none
    truck_id := none
    truck_number := none
    mobilePhoneNumber := none
    mobile := none
    phone := none
    techEmail := none
    email := none
    cityState := none
    vin := none
    vinNumber := none
    insurance_exp := DateVal.absent
    insuranceExpiration := DateVal.absent
    registration_exp := DateVal.absent
    registrationExpiration := DateVal.absent
    make := none
    model := none
    year := none
    industry := none
    industries := []
    submission_date := DateVal.absent
    dateStartedByov := DateVal.absent
    referred_by := none
    referredBy := none
    documents := [] }

def bigDoc : Doc := { file_path := "/data/big.jpg", doc_type := "vehicle", category := "" }

def smallDoc : Doc := { file_path := "/data/small.jpg", doc_type := "insurance", category := "" }

def srEnvSize : SREnv :=
  { loginResp := CallResult.ret respOkEmpty
    extResp := CallResult.ret (bareResp 201)
    dbDocs := [bigDoc, smallDoc]
    fileExists := fun _ => true
    readFile := fun p =>
      if p = "/data/big.jpg" then Except.ok (List.replicate (MAX_BYTES + 1) 0)
      else Except.ok [1, 2, 3]
    mimeOf := fun _ => some "image/jpeg" }

theorem c2_size_limit_witness :
    (srTechId srRecBase ≠ "") ∧
    (bigDoc ∈ srDocs srEnvSize srRecBase 7 ∧
      srEnvSize.readFile bigDoc.file_path = Except.ok (List.replicate (MAX_BYTES + 1) 0) ∧
      MAX_BYTES < (List.replicate (MAX_BYTES + 1) (0 : Nat)).length) ∧
    (push_to_dashboard_single_request srEnvSize srRecBase 7).1 =
      SROutcome.done 201 (respJson (bareResp 201))
        (srAttachPhotos srEnvSize (srDocs srEnvSize srRecBase 7)).1.length
        (srAttachPhotos srEnvSize (srDocs srEnvSize srRecBase 7)).2 ∧
    (encodeDoc srEnvSize bigDoc =
      (none, some ⟨bigDoc.file_path, "size_exceeded",
        some (List.replicate (MAX_BYTES + 1) (0 : Nat)).length⟩) ∧
     FailPhoto.mk bigDoc.file_path "size_exceeded"
        (some (List.replicate (MAX_BYTES + 1) (0 : Nat)).length) ∈
        (srAttachPhotos srEnvSize (srDocs srEnvSize srRecBase 7)).2) ∧
    ((encodeDoc srEnvSize smallDoc).2 = none ∧
     ∃ ph, (encodeDoc srEnvSize smallDoc).1 = some ph ∧
       ph ∈ (srAttachPhotos srEnvSize (srDocs srEnvSize srRecBase 7)).1) := by
  have hlen : (List.replicate (MAX_BYTES + 1) (0 : Nat)).length = MAX_BYTES + 1 :=
    List.length_replicate _ _
  have hbigmem : bigDoc ∈ srDocs srEnvSize srRecBase 7 := by
    simp [srDocs, srEnvSize]
  have hsmallmem : smallDoc ∈ srDocs srEnvSize srRecBase 7 := by
    simp [srDocs, srEnvSize]
  have hmain := c2_size_limit srEnvSize srRecBase 7 respOkEmpty (bareResp 201)
    rfl rfl (by decide) rfl
  obtain ⟨-, -, hdone, -, hdocs⟩ := hmain
  have hbig := (hdocs bigDoc hbigmem (List.replicate (MAX_BYTES + 1) 0)
    (by decide) rfl rfl).1 (by rw [hlen]; omega)
  have hsmall := (hdocs smallDoc hsmallmem [1, 2, 3]
    (by decide) rfl rfl).2 (by decide)
  exact ⟨by decide, ⟨hbigmem, rfl, by rw [hlen]; omega⟩, hdone, hbig, hsmall⟩

/-- C10: in the single-request strategy (login ok, technician id present,
request sent), the local sync-state store is written iff an enrollment id
was supplied and a technician id could be extracted from the response via
the probed shapes; when no id is found the store is untouched (nothing is
persisted) even though the request was sent and the failure list may be
non-empty; a persisted report carries the supplied enrollment id and the
string form of the extracted id. -/
theorem c10_persist_condition (env : SREnv) (record : SRRecord) (eid : Nat) (lr resp : Resp)
    (hl : env.loginResp = CallResult.ret lr) (hok : lr.okFlag = true)
    (ht : srTechId record ≠ "") (he : env.extResp = CallResult.ret resp) :
    ((push_to_dashboard_single_request env record eid).2.1 = none ↔
      (eid = 0 ∨ (extractReturnedId (respJson resp)).truthy = false)) ∧
    (∀ p, (push_to_dashboard_single_request env record eid).2.1 = some p →
      p.enrollment_id = eid ∧
      p.dashboard_tech_id = (extractReturnedId (respJson resp)).asStr ∧
      p.failed_uploads = (srAttachPhotos env (srDocs env record eid)).2) := by
  by_cases hcond : eid ≠ 0 ∧ (extractReturnedId (respJson resp)).truthy = true
  · constructor
    · simp [push_to_dashboard_single_request, hl, hok, ht, he, hcond]
    · intro p hp
      simp [push_to_dashboard_single_request, hl, hok, ht, he, hcond] at hp
      subst hp
      exact ⟨rfl, rfl, rfl⟩
  · have hcond2 : eid = 0 ∨ (extractReturnedId (respJson resp)).truthy = false := by
      by_contra hcontra
      push_neg at hcontra
      exact hcond ⟨hcontra.1, by
        cases h : (extractReturnedId (respJson resp)).truthy with
        | false => exact absurd h hcontra.2
        | true => rfl⟩
    constructor
    · simp [push_to_dashboard_single_request, hl, hok, ht, he, hcond]
      exact hcond2
    · intro p hp
      simp [push_to_dashboard_single_request, hl, hok, ht, he, hcond] at hp

def srEnvNoId : SREnv :=
  { loginResp := CallResult.ret respOkEmpty
    extResp := CallResult.ret
      { status_code := 201
        jsonBody := some (JVal.obj [("message", JVal.jstr "created")])
        text := "" }
    dbDocs := [{ file_path := "", doc_type := "vehicle", category := "" }]
    fileExists := fun _ => false
    readFile := fun _ => Except.error "unreadable"
    mimeOf := fun _ => none }

theorem c10_persist_condition_witness :
    (srTechId srRecBase ≠ "") ∧
    ((push_to_dashboard_single_request srEnvNoId srRecBase 7).2.1 = none ↔
      ((7 : Nat) = 0 ∨
        (extractReturnedId (respJson
          { status_code := 201
            jsonBody := some (JVal.obj [("message", JVal.jstr "created")])
            text := "" })).truthy = false)) ∧
    (push_to_dashboard_single_request srEnvNoId srRecBase 7).2.1 = none :=
  ⟨by decide,
   (c10_persist_condition srEnvNoId srRecBase 7 respOkEmpty
      { status_code := 201
        jsonBody := some (JVal.obj [("message", JVal.jstr "created")])
        text := "" } rfl rfl (by decide) rfl).1,
   by
    have h := (c10_persist_condition srEnvNoId srRecBase 7 respOkEmpty
      { status_code := 201
        jsonBody := some (JVal.obj [("message", JVal.jstr "created")])
        text := "" } rfl rfl (by decide) rfl).1
    exact h.mpr (Or.inr rfl)⟩

/-!  ## C8: missing technician identifier -/

def recNoTech : PushRecord := { recBase with tech_id := "" }

/-- C8 counterexample: with a record whose `tech_id` is missing, the sync
entry point does return the validation error `record missing tech_id`,
but a network call has already been made at that point — the login POST
precedes the identifier check — so the trace is not empty, contradicting
"no network call at all". -/
theorem c8_counterexample :
    (push_to_dashboard envExists recNoTech 1).1 = PushResult.errorMsg "record missing tech_id" ∧
    (push_to_dashboard envExists recNoTech 1).2 ≠ [] := by
  refine ⟨rfl, ?_⟩
  have h : (push_to_dashboard envExists recNoTech 1).2 = [NetCall.login] := rfl
  rw [h]
  exact List.cons_ne_nil _ _

def srRecNoTech : SRRecord := { srRecBase with tech_id := none }

/-- C8 amended: after a successful login (which is itself a network
call), a missing or empty technician identifier makes both sync entry
points fail with their validation error having performed no network call
beyond that login — no existence check, create, or upload; when the
identifier is present it is upper-cased in the outbound payload of both
strategies (`techId` key). -/
theorem c8_validation :
    (∀ env record eid lr, env.loginResp = CallResult.ret lr → lr.okFlag = true →
        record.tech_id = "" →
        push_to_dashboard env record eid =
          (PushResult.errorMsg "record missing tech_id", [NetCall.login])) ∧
    (∀ env record eid lr, env.loginResp = CallResult.ret lr → lr.okFlag = true →
        srTechId record = "" →
        push_to_dashboard_single_request env record eid =
          (SROutcome.missingTechId, none, [NetCall.login])) ∧
    (∀ record today, plookup (mkCreatePayload record today) "techId" =
        some (JVal.jstr (pyUpper record.tech_id))) ∧
    (∀ record, plookup (mkSRPayload record) "techId" =
        some (JVal.jstr (srTechId record))) := by
  refine ⟨?_, ?_, ?_, ?_⟩
  · intro env record eid lr hl hok ht
    have h0 : pyUpper record.tech_id = "" := (pyUpper_eq_empty_iff _).mpr ht
    simp [push_to_dashboard, hl, hok, h0]
  · intro env record eid lr hl hok ht
    simp [push_to_dashboard_single_request, hl, hok, ht]
  · intro record today
    simp [mkCreatePayload, plookup]
  · intro record
    simp [mkSRPayload, plookup, List.cons_append]

theorem c8_validation_witness :
    push_to_dashboard envExists recNoTech 1 =
      (PushResult.errorMsg "record missing tech_id", [NetCall.login]) ∧
    push_to_dashboard_single_request srEnvNoId srRecNoTech 1 =
      (SROutcome.missingTechId, none, [NetCall.login]) ∧
    plookup (mkCreatePayload recBase "2024-01-01") "techId" =
      some (JVal.jstr (pyUpper recBase.tech_id)) ∧
    plookup (mkSRPayload srRecBase) "techId" = some (JVal.jstr (srTechId srRecBase)) := by
  have h := c8_validation
  exact ⟨h.1 envExists recNoTech 1 respOkEmpty rfl rfl rfl,
         h.2.1 srEnvNoId srRecNoTech 1 respOkEmpty rfl rfl (by decide),
         h.2.2.1 recBase "2024-01-01",
         h.2.2.2 srRecBase⟩

/-!  ## `push_dashboard_update` payload (src/dashboard_sync.py:598-695)

Only the payload construction (lines 644-672) is embedded: it is the part
C9 is about.  The dict literal is followed by
`payload = {k: v for k, v in payload.items() if v is not None}`, which
drops every `None`-valued key — including the two expiration keys when
their date is absent or unparsable. -/

structure UpdRecord where
  full_name : Option String
  name : Option String
  tech_id : Option String
  techId : Option String
  state : Option String
  region : Option String
  district : Option String
  referred_by : Option String
  referredBy : Option String
  enrollmentStatus : Option String
  is_new_hire : Bool
  truck_number : Option String
  truckId : Option String
  vin : Option String
  vinNumber : Option String
  make : Option String
  vehicleMake : Option String
  model : Option String
  vehicleModel : Option String
  year : Option String
  vehicleYear : Option String
  industry : Option IndustryVal
  industries : List String
  insurance_exp : DateVal
  insuranceExpiration : DateVal
  registration_exp : DateVal
  registrationExpiration : DateVal

/-- Python `a or b` on two optional strings (the result may still be
`None`, which the comprehension then filters out). -/
def pyOrOpt (a b : Option String) : Option String :=
  match a with
  | some s => if s = "" then b else a
  | none => b

def updIndustry (r : UpdRecord) : String :=
  match r.industry with
  | some v => industryStr v
  | none => industryStr (IndustryVal.list r.industries)

/-- The update payload dict literal (src/dashboard_sync.py:653-670). -/
def mkUpdatePayloadRaw (r : UpdRecord) : List (String × JVal) :=
  let hire_status := if r.is_new_hire then "New Hire" else "Existing Tech"
  [("name", jOptStr (pyOrOpt r.full_name r.name)),
   ("techId", JVal.jstr (pyUpper (pyStrOr r.tech_id (pyStrOr r.techId "")))),
   ("region", jOptStr (pyOrOpt r.state r.region)),
   ("district", jOptStr r.district),
   ("referredBy", JVal.jstr (pyStrOr r.referred_by (pyStrOr r.referredBy ""))),
   ("enrollmentStatus", JVal.jstr (r.enrollmentStatus.getD "Enrolled")),
   ("isNewHire", JVal.jbool r.is_new_hire),
   ("hireStatus", JVal.jstr hire_status),
   ("truckId", JVal.jstr (pyStrOr r.truck_number (pyStrOr r.truckId ""))),
   ("vinNumber", jOptStr (pyOrOpt r.vin r.vinNumber)),
   ("vehicleMake", jOptStr (pyOrOpt r.make r.vehicleMake)),
   ("vehicleModel", jOptStr (pyOrOpt r.model r.vehicleModel)),
   ("vehicleYear", jOptStr (pyOrOpt r.year r.vehicleYear)),
   ("industry", JVal.jstr (updIndustry r)),
   ("insuranceExpiration", jOptStr (formatDate (dateOr r.insurance_exp r.insuranceExpiration))),
   ("registrationExpiration", jOptStr (formatDate (dateOr r.registration_exp r.registrationExpiration)))]

def JVal.isNull : JVal → Bool
  | JVal.null => true
  | _ => false

/-- The comprehension `{k: v for k, v in payload.items() if v is not None}`. -/
def mkUpdatePayload (r : UpdRecord) : List (String × JVal) :=
  (mkUpdatePayloadRaw r).filter (fun kv => !(JVal.isNull kv.2))

theorem plookup_filter_none (l : List (String × JVal)) (k : String)
    (h : ∀ v, (k, v) ∈ l → JVal.isNull v = true) :
    plookup (l.filter (fun kv => !(JVal.isNull kv.2))) k = none := by
  induction l with
  | nil => rfl
  | cons kv rest ih =>
    have hrest := ih (fun v hv => h v (List.mem_cons_of_mem _ hv))
    by_cases hk : kv.1 = k
    · have hkv : (k, kv.2) = kv := by rw [← hk]
      have hnull : JVal.isNull kv.2 = true := h kv.2 (hkv ▸ List.mem_cons_self _ _)
      simpa [List.filter_cons, hnull] using hrest
    · by_cases hnull : JVal.isNull kv.2 = true
      · simpa [List.filter_cons, hnull] using hrest
      · simpa [List.filter_cons, hnull, plookup, hk] using hrest

def updRecNoDates : UpdRecord :=
  { full_name := some "Jane Tech"
    name := none
    tech_id := some "t9"
    techId := none
    state := none
    region := none
    district := none
    referred_by := none
    referredBy := none
    enrollmentStatus := none
    is_new_hire := false
    truck_number := none
    truckId := none
    vin := none
    vinNumber := none
    make := none
    vehicleMake := none
    model := none
    vehicleModel := none
    year := none
    vehicleYear := none
    industry := none
    industries := []
    insurance_exp := DateVal.absent
    insuranceExpiration := DateVal.absent
    registration_exp := DateVal.absent
    registrationExpiration := DateVal.absent }

/-- C9 counterexample: for an update record with absent compliance dates,
the outbound update payload *omits* both expiration keys — the dict
literal maps them to `None` and the `is not None` comprehension then
drops them — contradicting "always present ... never omitted". -/
theorem c9_counterexample :
    plookup (mkUpdatePayload updRecNoDates) "insuranceExpiration" = none ∧
    plookup (mkUpdatePayload updRecNoDates) "registrationExpiration" = none ∧
    plookup (mkUpdatePayloadRaw updRecNoDates) "insuranceExpiration" = some JVal.null :=
  ⟨rfl, rfl, rfl⟩

/-- C9 amended: `_format_date` maps a parsable stored date to its
`YYYY-MM-DD` rendering and an absent or unparsable one to `None`; the
single-request create payload always carries both expiration keys, with
the explicit empty string when the date is absent/unparsable; the update
payload, by contrast, filters out `None` values, so there the expiration
keys are omitted whenever their date chain formats to `None`. -/
theorem c9_dates :
    (∀ y m d, formatDate (DateVal.parsed y m d) =
        some (padNum 4 y ++ "-" ++ padNum 2 m ++ "-" ++ padNum 2 d)) ∧
    formatDate DateVal.absent = none ∧
    (∀ s, formatDate (DateVal.unparsable s) = none) ∧
    (∀ r : SRRecord, plookup (mkSRPayload r) "insuranceExpiration" =
        some (JVal.jstr ((formatDate (dateOr r.insurance_exp r.insuranceExpiration)).getD "")) ∧
      plookup (mkSRPayload r) "registrationExpiration" =
        some (JVal.jstr ((formatDate (dateOr r.registration_exp r.registrationExpiration)).getD ""))) ∧
    (∀ r : UpdRecord,
      formatDate (dateOr r.insurance_exp r.insuranceExpiration) = none →
      plookup (mkUpdatePayload r) "insuranceExpiration" = none) ∧
    (∀ r : UpdRecord,
      formatDate (dateOr r.registration_exp r.registrationExpiration) = none →
      plookup (mkUpdatePayload r) "registrationExpiration" = none) := by
  refine ⟨fun y m d => rfl, rfl, fun s => rfl, ?_, ?_, ?_⟩
  · intro r
    constructor <;> simp [mkSRPayload, plookup, List.cons_append]
  · intro r hdate
    refine plookup_filter_none _ _ ?_
    intro v hv
    simp [mkUpdatePayloadRaw, hdate, jOptStr] at hv
    simp [hv, JVal.isNull]
  · intro r hdate
    refine plookup_filter_none _ _ ?_
    intro v hv
    simp [mkUpdatePayloadRaw, hdate, jOptStr] at hv
    simp [hv, JVal.isNull]

theorem c9_dates_witness :
    formatDate (DateVal.parsed 2025 3 7) = some "2025-03-07" ∧
    plookup (mkSRPayload srRecBase) "insuranceExpiration" =
      some (JVal.jstr ((formatDate
        (dateOr srRecBase.insurance_exp srRecBase.insuranceExpiration)).getD "")) ∧
    formatDate (dateOr updRecNoDates.insurance_exp updRecNoDates.insuranceExpiration) = none ∧
    plookup (mkUpdatePayload updRecNoDates) "insuranceExpiration" = none := by
  have h := c9_dates
  refine ⟨?_, (h.2.2.2.1 srRecBase).1, rfl, h.2.2.2.2.1 updRecNoDates rfl⟩
  rw [h.1 2025 3 7]
  decide

/-!  ## Resume orchestrator (`retry_failed_uploads`, src/dashboard_sync.py:925-1053)

The stored `last_upload_report` is modelled structurally (`Report`); the
`json.loads` round-trip of a string-typed column is not modelled.  The
`path_to_category` dict maps each document path to its `doc_type`, later
rows overwriting earlier ones, with default `'vehicle'` — hence the
reversed `find?` in `rfCatOf`. -/

structure Report where
  photo_count : Nat
  failed_uploads : List FailEntry
  deriving DecidableEq

structure RFRecord where
  dashboard_tech_id : String
  tech_id : String
  last_upload_report : Option Report
  deriving DecidableEq

structure RFEnv where
  loginResp : CallResult
  enrollment : Option RFRecord
  checkResp : CallResult
  dbDocs : List Doc
  pathExists : String → Bool
  uploadUrlResp : String → Nat → CallResult
  putResp : String → Nat → CallResult
  registerResp : String → Nat → CallResult
  mimeOf : String → Option String

def rfCatOf (env : RFEnv) (p : String) : String :=
  match env.dbDocs.reverse.find? (fun d => d.file_path == p) with
  | some d => d.doc_type
  | none => "vehicle"

/-- One iteration of the resume loop (src/dashboard_sync.py:989-1041):
missing file, signed-URL request, `uploadURL` extraction, `PUT`, then the
per-item registration, each wrapped in the retry controller (3 attempts,
base 0.6); a success bumps the retried counter, every failure appends a
`still_failed` entry carrying this entry's path and its own reason. -/
def retryOneUpload (env : RFEnv) (catOf : String → String) (entry : FailEntry) :
    Bool × Option FailEntry × List NetCall :=
  let path := entry.path
  if path = "" ∨ env.pathExists path = false then
    (false, some ⟨path, "missing"⟩, [])
  else
    let category := catOf path
    let upOut := retryRequest (env.uploadUrlResp path) 3 (3/5)
    let tr1 := List.replicate upOut.invocations (NetCall.uploadUrlReq category)
    match upOut.result with
    | Except.error e => (false, some ⟨path, e⟩, tr1)
    | Except.ok resp =>
      match resp.jsonBody with
      | some (JVal.obj kvs) =>
        let gcs := jlookup kvs "uploadURL"
        if gcs.truthy then
          let putOut := retryRequest (env.putResp path) 3 (3/5)
          let tr2 := List.replicate putOut.invocations (NetCall.putBytes gcs.asStr)
          match putOut.result with
          | Except.error e => (false, some ⟨path, e⟩, tr1 ++ tr2)
          | Except.ok _ =>
            let regOut := retryRequest (env.registerResp path) 3 (3/5)
            let tr3 := List.replicate regOut.invocations (NetCall.photoReg path)
            match regOut.result with
            | Except.ok _ => (true, none, tr1 ++ tr2 ++ tr3)
            | Except.error e => (false, some ⟨path, e⟩, tr1 ++ tr2 ++ tr3)
        else (false, some ⟨path, "no_upload_url"⟩, tr1)
      | _ => (false, some ⟨path, "json_attribute_error"⟩, tr1)

def retryLoop (env : RFEnv) (catOf : String → String) :
    List FailEntry → Nat × List FailEntry × List NetCall
  | [] => (0, [], [])
  | e :: rest =>
    let hd := retryOneUpload env catOf e
    let tl := retryLoop env catOf rest
    ((if hd.1 then 1 else 0) + tl.1, hd.2.1.toList ++ tl.2.1, hd.2.2 ++ tl.2.2)

/-- Every iteration of the resume loop either succeeds with no
`still_failed` entry, or fails producing exactly one `still_failed`
entry that carries the attempted entry's own path. -/
theorem retryOneUpload_spec (env : RFEnv) (catOf : String → String) (e : FailEntry) :
    ((retryOneUpload env catOf e).1 = true ∧ (retryOneUpload env catOf e).2.1 = none) ∨
    ((retryOneUpload env catOf e).1 = false ∧
      ∃ msg, (retryOneUpload env catOf e).2.1 = some (FailEntry.mk e.path msg)) := by
  unfold retryOneUpload
  by_cases h0 : e.path = "" ∨ env.pathExists e.path = false
  · exact Or.inr (by simp [h0])
  · simp only [h0, if_false]
    cases h1 : (retryRequest (env.uploadUrlResp e.path) 3 (3/5)).result with
    | error msg => exact Or.inr (by simp [h1])
    | ok resp =>
      cases h2 : resp.jsonBody with
      | none => exact Or.inr (by simp [h1, h2])
      | some v =>
        cases v with
        | obj kvs =>
          by_cases h3 : (jlookup kvs "uploadURL").truthy
          · cases h4 : (retryRequest (env.putResp e.path) 3 (3/5)).result with
            | error msg => exact Or.inr (by simp [h1, h2, h3, h4])
            | ok putr =>
              cases h5 : (retryRequest (env.registerResp e.path) 3 (3/5)).result with
              | ok regr => exact Or.inl (by simp [h1, h2, h3, h4, h5])
              | error msg => exact Or.inr (by simp [h1, h2, h3, h4, h5])
          · exact Or.inr (by simp [h1, h2, h3])
        | null => exact Or.inr (by simp [h1, h2])
        | jstr s => exact Or.inr (by simp [h1, h2])
        | jnum n => exact Or.inr (by simp [h1, h2])
        | jbool b => exact Or.inr (by simp [h1, h2])
        | arr xs => exact Or.inr (by simp [h1, h2])

/-- The resume loop is conservative: retried successes and still-failing
entries partition the attempted list, and every still-failing entry's
path comes from the attempted list. -/
theorem retryLoop_spec (env : RFEnv) (catOf : String → String) (entries : List FailEntry) :
    (retryLoop env catOf entries).1 + (retryLoop env catOf entries).2.1.length =
      entries.length ∧
    ∀ fe ∈ (retryLoop env catOf entries).2.1, fe.path ∈ entries.map FailEntry.path := by
  induction entries with
  | nil => simp [retryLoop]
  | cons e rest ih =>
    obtain ⟨ih1, ih2⟩ := ih
    rcases retryOneUpload_spec env catOf e with ⟨hok, hnone⟩ | ⟨hok, msg, hsome⟩
    · constructor
      · simp only [retryLoop, hok, hnone, if_true, Option.toList_none, List.nil_append,
          List.length_cons]
        omega
      · intro fe hfe
        simp only [retryLoop, hok, hnone, Option.toList_none, List.nil_append] at hfe
        exact List.mem_cons_of_mem _ (ih2 fe hfe)
    · constructor
      · simp only [retryLoop, hok, hsome, if_false, Option.toList_some, List.cons_append,
          List.nil_append, List.length_cons, Bool.false_eq_true]
        omega
      · intro fe hfe
        simp only [retryLoop, hok, hsome, Option.toList_some, List.cons_append,
          List.nil_append, Bool.false_eq_true, if_false] at hfe
        rcases List.mem_cons.mp hfe with heq | hmem
        · subst heq
          exact List.mem_cons_self _ _
        · exact List.mem_cons_of_mem _ (ih2 fe hmem)

/-- Result dict of `retry_failed_uploads`; `zeroWork` stands for
`{"retried_count": 0, "remaining_failed": 0}`. -/
inductive RFResult where
  | loginExc (e : String)
  | loginFailed (status : Nat) (body : String)
  | errorMsg (msg : String)
  | zeroWork
  | doneR (retried_count : Nat) (remaining_failed : Nat) (still_failed : List FailEntry)
  deriving DecidableEq

/-- The `set_dashboard_sync_info` write of the resume flow
(src/dashboard_sync.py:1043-1051). -/
structure RFPersist where
  enrollment_id : Nat
  dashboard_tech_id : String
  photo_count : Nat
  failed_uploads : List FailEntry
  deriving DecidableEq

def retry_failed_uploads (env : RFEnv) (enrollment_id : Nat) :
    RFResult × Option RFPersist × List NetCall :=
  match env.loginResp with
  | CallResult.raised e => (RFResult.loginExc ("Login exception: " ++ e), none, [NetCall.login])
  | CallResult.ret lr =>
    if lr.okFlag then
      match env.enrollment with
      | none => (RFResult.errorMsg "enrollment not found", none, [NetCall.login])
      | some record =>
        let tech_id := pyUpper record.tech_id
        let dashLookup : String × List NetCall :=
          if record.dashboard_tech_id ≠ "" then (record.dashboard_tech_id, [NetCall.login])
          else
            let tr := [NetCall.login, NetCall.checkTech tech_id]
            match env.checkResp with
            | CallResult.raised _ => ("", tr)
            | CallResult.ret cr =>
              if cr.okFlag then
                match cr.jsonBody with
                | some (JVal.arr (x :: _)) =>
                  let idv :=
                    match x with
                    | JVal.obj kvs => jlookup kvs "id"
                    | _ => JVal.null
                  (if idv.truthy then idv.asStr else "", tr)
                | _ => ("", tr)
              else ("", tr)
        if dashLookup.1 = "" then
          (RFResult.errorMsg "dashboard technician id not found", none, dashLookup.2)
        else
          match record.last_upload_report with
          | none => (RFResult.errorMsg "no last_upload_report available", none, dashLookup.2)
          | some report =>
            if report.failed_uploads.isEmpty then (RFResult.zeroWork, none, dashLookup.2)
            else
              let out := retryLoop env (rfCatOf env) report.failed_uploads
              let new_report : RFPersist :=
                { enrollment_id := enrollment_id
                  dashboard_tech_id := dashLookup.1
                  photo_count := report.photo_count + out.1
                  failed_uploads := out.2.1 }
              (RFResult.doneR out.1 out.2.1.length out.2.1, some new_report,
                dashLookup.2 ++ out.2.2)
    else (RFResult.loginFailed lr.status_code (pyTake200 lr.text), none, [NetCall.login])

/-- C5: when a prior report with a non-empty failure list is resumed
(login ok, enrollment found, dashboard id stored), exactly the entries of
that list are attempted; the persisted report's count is the prior count
plus the number of newly-succeeded entries, its failure list is exactly
the still-failing subset of the attempted entries (successes and
still-failures partition the attempted list), and every still-failing
entry's path comes from the input failure list. -/
theorem c5_resume_monotone (env : RFEnv) (eid : Nat) (lr : Resp) (record : RFRecord)
    (rep : Report)
    (hl : env.loginResp = CallResult.ret lr) (hok : lr.okFlag = true)
    (hr : env.enrollment = some record) (hd : record.dashboard_tech_id ≠ "")
    (hrep : record.last_upload_report = some rep) (hne : rep.failed_uploads ≠ []) :
    (retry_failed_uploads env eid).1 =
      RFResult.doneR (retryLoop env (rfCatOf env) rep.failed_uploads).1
        (retryLoop env (rfCatOf env) rep.failed_uploads).2.1.length
        (retryLoop env (rfCatOf env) rep.failed_uploads).2.1 ∧
    (retry_failed_uploads env eid).2.1 =
      some { enrollment_id := eid
             dashboard_tech_id := record.dashboard_tech_id
             photo_count := rep.photo_count + (retryLoop env (rfCatOf env) rep.failed_uploads).1
             failed_uploads := (retryLoop env (rfCatOf env) rep.failed_uploads).2.1 } ∧
    (retryLoop env (rfCatOf env) rep.failed_uploads).1 +
      (retryLoop env (rfCatOf env) rep.failed_uploads).2.1.length =
      rep.failed_uploads.length ∧
    ∀ fe ∈ (retryLoop env (rfCatOf env) rep.failed_uploads).2.1,
      fe.path ∈ rep.failed_uploads.map FailEntry.path := by
  have hempty : rep.failed_uploads.isEmpty = false := by
    cases hfe : rep.failed_uploads with
    | nil => exact absurd hfe hne
    | cons a l => rfl
  obtain ⟨hcount, hsub⟩ := retryLoop_spec env (rfCatOf env) rep.failed_uploads
  refine ⟨?_, ?_, hcount, hsub⟩
  · simp [retry_failed_uploads, hl, hok, hr, hd, hrep, hempty]
  · simp [retry_failed_uploads, hl, hok, hr, hd, hrep, hempty]

def rfRecW : RFRecord :=
  { dashboard_tech_id := "D1"
    tech_id := "t9"
    last_upload_report :=
      some { photo_count := 3
             failed_uploads := [⟨"/data/a.jpg", "status_500"⟩, ⟨"/data/b.jpg", "timeout"⟩] } }

def repW : Report :=
  { photo_count := 3
    failed_uploads := [⟨"/data/a.jpg", "status_500"⟩, ⟨"/data/b.jpg", "timeout"⟩] }

def rfEnvW : RFEnv :=
  { loginResp := CallResult.ret respOkEmpty
    enrollment := some rfRecW
    checkResp := CallResult.raised "unreachable"
    dbDocs := [{ file_path := "/data/a.jpg", doc_type := "vehicle", category := "" }]
    pathExists := fun p => p = "/data/a.jpg"
    uploadUrlResp := fun _ _ =>
      CallResult.ret
        { status_code := 200
          jsonBody := some (JVal.obj [("uploadURL", JVal.jstr "https://gcs.example/u1")])
          text := "" }
    putResp := fun _ _ => CallResult.ret respOkEmpty
    registerResp := fun _ _ => CallResult.ret respOkEmpty
    mimeOf := fun _ => some "image/jpeg" }

theorem c5_resume_monotone_witness :
    rfRecW.last_upload_report = some repW ∧
    (retry_failed_uploads rfEnvW 4).2.1 =
      some { enrollment_id := 4
             dashboard_tech_id := rfRecW.dashboard_tech_id
             photo_count := repW.photo_count + (retryLoop rfEnvW (rfCatOf rfEnvW) repW.failed_uploads).1
             failed_uploads := (retryLoop rfEnvW (rfCatOf rfEnvW) repW.failed_uploads).2.1 } ∧
    (retryLoop rfEnvW (rfCatOf rfEnvW) repW.failed_uploads).1 +
      (retryLoop rfEnvW (rfCatOf rfEnvW) repW.failed_uploads).2.1.length =
      repW.failed_uploads.length := by
  have h := c5_resume_monotone rfEnvW 4 respOkEmpty rfRecW repW rfl rfl rfl
    (by decide) rfl (by decide)
  exact ⟨rfl, h.2.1, h.2.2.1⟩

def rfRecClean : RFRecord :=
  { dashboard_tech_id := "D1"
    tech_id := "t9"
    last_upload_report := some { photo_count := 2, failed_uploads := [] } }

def rfEnvClean : RFEnv :=
  { rfEnvW with enrollment := some rfRecClean }

/-- C6 counterexample: resuming an enrollment whose last report has no
failed entries does return the zero-work result, but the trace is not
empty — the login POST has already been performed before the report is
inspected — contradicting "performs no network calls at all". -/
theorem c6_counterexample :
    (retry_failed_uploads rfEnvClean 4).1 = RFResult.zeroWork ∧
    (retry_failed_uploads rfEnvClean 4).2.2 ≠ [] := by
  refine ⟨rfl, ?_⟩
  have h : (retry_failed_uploads rfEnvClean 4).2.2 = [NetCall.login] := rfl
  rw [h]
  exact List.cons_ne_nil _ _

/-- C6 amended: when the last persisted report has no failed entries
(login ok, enrollment found, dashboard id stored), the resume
orchestrator returns the zero-work result
`{"retried_count": 0, "remaining_failed": 0}` immediately: it attempts no
upload, PUT or registration call — the only network call in the trace is
the login that precedes the check — and persists nothing. -/
theorem c6_clean_report_zero_work (env : RFEnv) (eid : Nat) (lr : Resp) (record : RFRecord)
    (rep : Report)
    (hl : env.loginResp = CallResult.ret lr) (hok : lr.okFlag = true)
    (hr : env.enrollment = some record) (hd : record.dashboard_tech_id ≠ "")
    (hrep : record.last_upload_report = some rep) (hclean : rep.failed_uploads = []) :
    retry_failed_uploads env eid = (RFResult.zeroWork, none, [NetCall.login]) := by
  simp [retry_failed_uploads, hl, hok, hr, hd, hrep, hclean]

theorem c6_clean_report_zero_work_witness :
    rfRecClean.last_upload_report = some { photo_count := 2, failed_uploads := [] } ∧
    retry_failed_uploads rfEnvClean 4 = (RFResult.zeroWork, none, [NetCall.login]) :=
  ⟨rfl,
   c6_clean_report_zero_work rfEnvClean 4 respOkEmpty rfRecClean
     { photo_count := 2, failed_uploads := [] } rfl rfl rfl (by decide) rfl rfl⟩

end DashboardSync
